import Mathlib

/-!
Shallow embedding of the translation pass-through service in `src/app.py`
(FastAPI endpoint `translate_text`, the language table `SUPPORTED_LANGUAGES`,
and the display-name inversion used by the UI adapter), together with proofs
about its validation, forwarding and error-mapping behaviour.

Python dictionaries with string keys and string values are embedded as
insertion-ordered association lists; `dictGet` is first-match lookup, which
agrees with Python because every dictionary built here has unique keys.
JSON bodies are embedded as string-valued objects (an association list),
which covers every body the handler inspects: the handler only tests key
membership and extracts the `translatedText` string. The outbound HTTP call
is embedded by recording the request the handler constructs and taking the
backend behaviour (status, raw body text, parsed JSON or a decode failure,
or a transport-level failure) as a parameter.
-/

-- ---------------------------------------------------------------------------
-- Python string helpers: `str.strip()` with no arguments
-- ---------------------------------------------------------------------------

/-- Whitespace as recognised by Python `str.strip()` / `Py_UNICODE_ISSPACE`. -/
def pyIsSpace (c : Char) : Bool :=
  let n := c.toNat
  decide ((9 ≤ n ∧ n ≤ 13) ∨ (28 ≤ n ∧ n ≤ 31) ∨ n = 32 ∨ n = 0x85 ∨
    n = 0xA0 ∨ n = 0x1680 ∨ (0x2000 ≤ n ∧ n ≤ 0x200A) ∨ n = 0x2028 ∨
    n = 0x2029 ∨ n = 0x202F ∨ n = 0x205F ∨ n = 0x3000)

/-- Python `s.strip()`: remove leading and trailing whitespace. -/
def pyStrip (s : String) : String :=
  ⟨(((s.data.dropWhile pyIsSpace).reverse.dropWhile pyIsSpace).reverse)⟩

-- ---------------------------------------------------------------------------
-- Python dict embedding (string keys, string values)
-- ---------------------------------------------------------------------------

/-- First-match lookup in an association list (`d[k]` on a unique-key dict). -/
def dictGet (d : List (String × String)) (k : String) : Option String :=
  match d with
  | [] => none
  | (k2, v) :: rest => if k2 = k then some v else dictGet rest k

/-- Python `k in d`. -/
def dictContains (d : List (String × String)) (k : String) : Bool :=
  (dictGet d k).isSome

/-- Python `d[k] = v`: overwrite in place if the key exists, else append,
keeping the original insertion position on overwrite as Python dicts do. -/
def dictInsert (d : List (String × String)) (k v : String) :
    List (String × String) :=
  match d with
  | [] => [(k, v)]
  | (k2, v2) :: rest =>
    if k2 = k then (k, v) :: rest else (k2, v2) :: dictInsert rest k v

-- ---------------------------------------------------------------------------
-- Data model (src/app.py lines 12-18)
-- ---------------------------------------------------------------------------

structure TranslationRequest where
  text : String
  source_lang : String
  target_lang : String
  deriving DecidableEq, Repr

structure TranslationResponse where
  translated_text : String
  deriving DecidableEq, Repr

/-- FastAPI `HTTPException(status_code=..., detail=...)`. -/
structure HTTPException where
  status_code : Nat
  detail : String
  deriving DecidableEq, Repr

-- ---------------------------------------------------------------------------
-- Config (src/app.py lines 24-40)
-- ---------------------------------------------------------------------------

def TRANSLATION_API_URL : String := "http://localhost:5000/translate"

def SUPPORTED_LANGUAGES : List (String × String) :=
  [("en", "English"), ("es", "Spanish"), ("fr", "French"), ("de", "German"),
   ("it", "Italian"), ("pt", "Portuguese"), ("ru", "Russian"),
   ("zh", "Chinese"), ("ar", "Arabic"), ("tr", "Turkish"),
   ("ja", "Japanese"), ("ko", "Korean"), ("hi", "Hindi")]

-- ---------------------------------------------------------------------------
-- Backend / transport model
-- ---------------------------------------------------------------------------

/-- Behaviour of the one outbound `client.post` call: either an HTTP response
(status code, raw body text, and the result of `response.json()` — a
string-valued JSON object, or a decode failure whose `str(e)` is carried),
or a transport-level failure (connection refused etc.) whose `str(e)` is
carried. -/
inductive BackendResult where
  | response (status_code : Nat) (text : String)
      (json : Except String (List (String × String)))
  | connectError (msg : String)
  deriving Repr

/-- The outbound HTTP request the handler constructs (src/app.py 56-69). -/
structure OutboundRequest where
  url : String
  method : String
  payload : List (String × String)
  contentType : String
  deriving DecidableEq, Repr

/-- Exceptions that can escape the `try` block body (src/app.py 63-76). -/
inductive TryExc where
  | httpStatusError (responseText : String)
  | innerHTTPException (e : HTTPException)
  | otherExc (msg : String)
  deriving DecidableEq, Repr

/-- Models Starlette `HTTPException.__str__`, used by `str(e)` in the
blanket `except Exception` clause. -/
def strHTTPException (e : HTTPException) : String :=
  toString e.status_code ++ ": " ++ e.detail

/-- Body of the `try` block (src/app.py 64-76): run the post, call
`raise_for_status` (httpx raises `HTTPStatusError` for any non-2xx status),
parse JSON, check for `translatedText`, and build the response. -/
def try_block (backend : BackendResult) :
    Except TryExc TranslationResponse :=
  match backend with
  | .connectError msg => .error (.otherExc msg)
  | .response status_code text json =>
    if ¬ (200 ≤ status_code ∧ status_code < 300) then
      .error (.httpStatusError text)
    else
      match json with
      | .error msg => .error (.otherExc msg)
      | .ok data =>
        match dictGet data "translatedText" with
        | none =>
          .error (.innerHTTPException
            ⟨500, "Unexpected API response format."⟩)
        | some v => .ok ⟨v⟩

/-- The `except` clauses (src/app.py 77-80): `httpx.HTTPStatusError` is
matched first; everything else — including the handler raising its own
`HTTPException` on line 74, which is an `Exception` subclass raised inside
the `try` — falls to the blanket `except Exception` clause. -/
def run_try (backend : BackendResult) :
    Except HTTPException TranslationResponse :=
  match try_block backend with
  | .ok r => .ok r
  | .error (.httpStatusError body) =>
    .error ⟨500, "Translation service error: " ++ body⟩
  | .error (.innerHTTPException e) =>
    .error ⟨500, "Internal server error: " ++ strHTTPException e⟩
  | .error (.otherExc msg) =>
    .error ⟨500, "Internal server error: " ++ msg⟩

/-- `translate_text` (src/app.py 47-80). Returns the list of outbound HTTP
requests issued (empty on validation failure, a singleton otherwise)
together with the HTTP outcome: a `TranslationResponse` or an
`HTTPException`. -/
def translate_text (backend : BackendResult) (request : TranslationRequest) :
    List OutboundRequest × Except HTTPException TranslationResponse :=
  if pyStrip request.text = "" then
    ([], .error ⟨400, "Text is required."⟩)
  else if dictContains SUPPORTED_LANGUAGES request.source_lang = false then
    ([], .error ⟨400, "Unsupported source language: " ++ request.source_lang⟩)
  else if dictContains SUPPORTED_LANGUAGES request.target_lang = false then
    ([], .error ⟨400, "Unsupported target language: " ++ request.target_lang⟩)
  else
    let payload := [("q", request.text), ("source", request.source_lang),
                    ("target", request.target_lang), ("format", "text")]
    ([⟨TRANSLATION_API_URL, "POST", payload,
       "application/x-www-form-urlencoded"⟩],
     run_try backend)

-- ---------------------------------------------------------------------------
-- UI adapter: display-name inversion (src/app.py 88)
-- ---------------------------------------------------------------------------

/-- `inv_langs = dict((v, k) for k, v in SUPPORTED_LANGUAGES.items())`. -/
def inv_langs : List (String × String) :=
  SUPPORTED_LANGUAGES.foldl (fun acc p => dictInsert acc p.2 p.1) []

-- ---------------------------------------------------------------------------
-- Concrete backend behaviours used as test doubles
-- ---------------------------------------------------------------------------

/-- Backend answering HTTP 200 with body containing translatedText Hola. -/
def backendHola : BackendResult :=
  .response 200 "\x7b\"translatedText\": \"Hola\"\x7d"
    (.ok [("translatedText", "Hola")])

/-- Backend answering HTTP 200 with the empty JSON object. -/
def backendEmptyJson : BackendResult :=
  .response 200 "\x7b\x7d" (.ok [])

-- ---------------------------------------------------------------------------
-- Helper lemmas
-- ---------------------------------------------------------------------------

theorem pyStrip_eq_empty_of_all (s : String)
    (h : s.data.all pyIsSpace = true) : pyStrip s = "" := by
  unfold pyStrip
  have h1 : s.data.dropWhile pyIsSpace = [] := by
    rw [List.dropWhile_eq_nil_iff]
    intro x hx
    exact List.all_eq_true.mp h x hx
  rw [h1]
  rfl

-- ---------------------------------------------------------------------------
-- Claims
-- ---------------------------------------------------------------------------

/-- Claim C1: for the request with text Hello, sourceLang en, targetLang es,
where the backend replies HTTP 200 with a JSON body mapping translatedText
to Hola, translate succeeds and returns a result whose translated_text
field equals Hola. -/
theorem C1_translate_success :
    (translate_text backendHola ⟨"Hello", "en", "es"⟩).2 = .ok ⟨"Hola"⟩ :=
  rfl

/-- Claim C2, corrected: for every request whose text is empty or consists
only of whitespace characters, translate fails with a 400 error whose
message is "Text is required." (capitalised with a trailing period, not
"text is required" as the claim states), regardless of the language codes
supplied — the text check happens first, so no outbound call is made and
this error is produced even when the language codes are also invalid. -/
theorem C2_blank_text_rejected (backend : BackendResult)
    (request : TranslationRequest)
    (h : request.text.data.all pyIsSpace = true) :
    translate_text backend request =
      ([], .error ⟨400, "Text is required."⟩) := by
  unfold translate_text
  simp [pyStrip_eq_empty_of_all request.text h]

/-- Witness for claim C2: the all-whitespace text "  " with two invalid
language codes is rejected with the 400 text-required error and no
outbound call. -/
theorem C2_blank_text_rejected_witness :
    ("  ".data.all pyIsSpace = true) ∧
    translate_text backendHola ⟨"  ", "xx", "yy"⟩ =
      ([], .error ⟨400, "Text is required."⟩) :=
  ⟨by decide, C2_blank_text_rejected backendHola ⟨"  ", "xx", "yy"⟩ (by decide)⟩

/-- Counterexample to claim C2 as stated: at the concrete input with empty
text and language codes xx and yy, the error detail is "Text is required.",
which is not the string "text is required" named by the claim. -/
theorem C2_message_counterexample :
    (translate_text backendHola ⟨"", "xx", "yy"⟩).2 =
      .error ⟨400, "Text is required."⟩ ∧
    "Text is required." ≠ "text is required" :=
  ⟨rfl, by decide⟩

/-- Claim C3: for every language code c outside the 13-entry table, a
request with non-empty (after stripping) text using c as sourceLang fails
with a 400 error naming c in the source message — whatever the target code
is, so the source check comes first — and a request with a supported
sourceLang and c as targetLang fails with a 400 error naming c in the
target message; the two messages are distinct. -/
theorem C3_unsupported_code_rejected (backend : BackendResult)
    (text s c : String)
    (hne : pyStrip text ≠ "")
    (hc : dictContains SUPPORTED_LANGUAGES c = false)
    (hs : dictContains SUPPORTED_LANGUAGES s = true) :
    (∀ t, (translate_text backend ⟨text, c, t⟩).2 =
        .error ⟨400, "Unsupported source language: " ++ c⟩) ∧
    ((translate_text backend ⟨text, s, c⟩).2 =
        .error ⟨400, "Unsupported target language: " ++ c⟩) ∧
    "Unsupported source language: " ++ c ≠
      "Unsupported target language: " ++ c := by
  refine ⟨fun t => ?_, ?_, fun hcontra => ?_⟩
  · simp [translate_text, hne, hc]
  · simp [translate_text, hne, hc, hs]
  · have hd : "Unsupported source language: ".data ++ c.data =
        "Unsupported target language: ".data ++ c.data :=
      congrArg String.data hcontra
    have h2 : "Unsupported source language: ".data =
        "Unsupported target language: ".data :=
      List.append_cancel_right hd
    exact absurd h2 (by decide)

/-- Witness for claim C3: with non-empty text Hello, the unsupported code
xx as source (target yy also junk) yields the source-naming 400 error. -/
theorem C3_unsupported_code_rejected_witness :
    dictContains SUPPORTED_LANGUAGES "xx" = false ∧
    (translate_text backendHola ⟨"Hello", "xx", "yy"⟩).2 =
      .error ⟨400, "Unsupported source language: " ++ "xx"⟩ :=
  ⟨by decide, (C3_unsupported_code_rejected backendHola "Hello" "en" "xx"
    (by decide) (by decide) (by decide)).1 "yy"⟩

/-- Claim C4 (code bug demonstration): for the valid request (Hello, en,
es), a backend reply of HTTP 200 with an empty JSON object makes translate
fail with status 500 — but the detail is not the intended
"Unexpected API response format." message: the HTTPException raised inside
the try block is caught by the blanket except clause and re-wrapped, so
the detail becomes "Internal server error: 500: Unexpected API response
format.". -/
theorem C4_missing_field_wrapped :
    (translate_text backendEmptyJson ⟨"Hello", "en", "es"⟩).2 =
      .error ⟨500,
        "Internal server error: 500: Unexpected API response format."⟩ :=
  rfl

/-- Claim C5: for every request that passes validation, a backend reply
with a non-success HTTP status makes translate fail with a 500 error whose
detail embeds the raw response body of the backend. -/
theorem C5_upstream_error (status_code : Nat) (body : String)
    (json : Except String (List (String × String)))
    (request : TranslationRequest)
    (hne : pyStrip request.text ≠ "")
    (hs : dictContains SUPPORTED_LANGUAGES request.source_lang = true)
    (ht : dictContains SUPPORTED_LANGUAGES request.target_lang = true)
    (hstatus : ¬ (200 ≤ status_code ∧ status_code < 300)) :
    (translate_text (.response status_code body json) request).2 =
      .error ⟨500, "Translation service error: " ++ body⟩ := by
  simp [translate_text, hne, hs, ht, run_try, try_block, hstatus]

/-- Witness for claim C5: backend status 503 with body text
"service unavailable" yields the 500 upstream error carrying that body. -/
theorem C5_upstream_error_witness :
    (¬ (200 ≤ 503 ∧ 503 < 300)) ∧
    (translate_text (.response 503 "service unavailable" (.ok []))
        ⟨"Hello", "en", "es"⟩).2 =
      .error ⟨500, "Translation service error: " ++ "service unavailable"⟩ :=
  ⟨by decide, C5_upstream_error 503 "service unavailable" (.ok [])
    ⟨"Hello", "en", "es"⟩ (by decide) (by decide) (by decide) (by decide)⟩

/-- Claim C6: a request with sourceLang equal to targetLang (both the same
supported code) and non-blank text passes all three validation checks, and
the single outbound request carries that code unchanged in both the source
and the target form fields. -/
theorem C6_same_language_accepted (backend : BackendResult)
    (text c : String)
    (hne : pyStrip text ≠ "")
    (hc : dictContains SUPPORTED_LANGUAGES c = true) :
    (translate_text backend ⟨text, c, c⟩).1 =
      [⟨TRANSLATION_API_URL, "POST",
        [("q", text), ("source", c), ("target", c), ("format", "text")],
        "application/x-www-form-urlencoded"⟩] := by
  simp [translate_text, hne, hc]

/-- Witness for claim C6: text Hello with en as both source and target is
forwarded with source en and target en. -/
theorem C6_same_language_accepted_witness :
    dictContains SUPPORTED_LANGUAGES "en" = true ∧
    (translate_text backendHola ⟨"Hello", "en", "en"⟩).1 =
      [⟨TRANSLATION_API_URL, "POST",
        [("q", "Hello"), ("source", "en"), ("target", "en"),
         ("format", "text")],
        "application/x-www-form-urlencoded"⟩] :=
  ⟨by decide, C6_same_language_accepted backendHola "Hello" "en"
    (by decide) (by decide)⟩

/-- Claim C7: every request that passes validation issues exactly one
outbound POST to the configured backend address, with a form-encoded body
holding exactly the fields q (the text), source, target, and format set to
"text", and the form-urlencoded content type header — whatever the backend
then does, so there are no retries. -/
theorem C7_single_outbound_post (backend : BackendResult)
    (request : TranslationRequest)
    (hne : pyStrip request.text ≠ "")
    (hs : dictContains SUPPORTED_LANGUAGES request.source_lang = true)
    (ht : dictContains SUPPORTED_LANGUAGES request.target_lang = true) :
    (translate_text backend request).1 =
      [⟨TRANSLATION_API_URL, "POST",
        [("q", request.text), ("source", request.source_lang),
         ("target", request.target_lang), ("format", "text")],
        "application/x-www-form-urlencoded"⟩] := by
  simp [translate_text, hne, hs, ht]

/-- Witness for claim C7: the valid request (Bonjour, fr, de) against a
backend whose transport fails still issues exactly the one outbound POST
with the four form fields. -/
theorem C7_single_outbound_post_witness :
    dictContains SUPPORTED_LANGUAGES "fr" = true ∧
    (translate_text (.connectError "connection refused")
        ⟨"Bonjour", "fr", "de"⟩).1 =
      [⟨TRANSLATION_API_URL, "POST",
        [("q", "Bonjour"), ("source", "fr"), ("target", "de"),
         ("format", "text")],
        "application/x-www-form-urlencoded"⟩] :=
  ⟨by decide, C7_single_outbound_post (.connectError "connection refused")
    ⟨"Bonjour", "fr", "de"⟩ (by decide) (by decide) (by decide)⟩

/-- Claim C9: for every request that passes validation, the q field of the
one outbound request is the original text of the caller, not the stripped
text — stripping decides the emptiness check only, so leading or trailing
whitespace around non-whitespace content is forwarded preserved. -/
theorem C9_original_text_forwarded (backend : BackendResult)
    (request : TranslationRequest)
    (hne : pyStrip request.text ≠ "")
    (hs : dictContains SUPPORTED_LANGUAGES request.source_lang = true)
    (ht : dictContains SUPPORTED_LANGUAGES request.target_lang = true) :
    ((translate_text backend request).1.map
        (fun o => dictGet o.payload "q")) = [some request.text] := by
  simp [translate_text, hne, hs, ht, dictGet]

/-- Witness for claim C9: the text " Hello " strips to "Hello" and differs
from it, yet the q field forwarded to the backend is " Hello " itself. -/
theorem C9_original_text_forwarded_witness :
    pyStrip " Hello " = "Hello" ∧ (" Hello " : String) ≠ "Hello" ∧
    ((translate_text backendHola ⟨" Hello ", "en", "es"⟩).1.map
        (fun o => dictGet o.payload "q")) = [some " Hello "] :=
  ⟨by decide, by decide, C9_original_text_forwarded backendHola
    ⟨" Hello ", "en", "es"⟩ (by decide) (by decide) (by decide)⟩

/-- Claim C10: whenever validation fails — blank text, unsupported source
code, or unsupported target code — translate issues no outbound HTTP
request at all: the list of outbound requests is empty. -/
theorem C10_no_outbound_on_validation_failure (backend : BackendResult)
    (request : TranslationRequest)
    (h : pyStrip request.text = "" ∨
         dictContains SUPPORTED_LANGUAGES request.source_lang = false ∨
         dictContains SUPPORTED_LANGUAGES request.target_lang = false) :
    (translate_text backend request).1 = [] := by
  unfold translate_text
  rcases h with h | h | h
  · simp [h]
  · by_cases h1 : pyStrip request.text = "" <;> simp [h1, h]
  · by_cases h1 : pyStrip request.text = "" <;>
      by_cases h2 :
        dictContains SUPPORTED_LANGUAGES request.source_lang = false <;>
      simp [h1, h2, h]

/-- Witness for claim C10: the request with non-blank text but unsupported
source code xx produces no outbound request. -/
theorem C10_no_outbound_on_validation_failure_witness :
    (pyStrip "Hello" = "" ∨
     dictContains SUPPORTED_LANGUAGES "xx" = false ∨
     dictContains SUPPORTED_LANGUAGES "es" = false) ∧
    (translate_text backendHola ⟨"Hello", "xx", "es"⟩).1 = [] :=
  ⟨Or.inr (Or.inl (by decide)),
   C10_no_outbound_on_validation_failure backendHola ⟨"Hello", "xx", "es"⟩
     (Or.inr (Or.inl (by decide)))⟩

/-- Claim C8: the reverse lookup built by inverting the 13-entry language
table is a perfect inverse of the forward lookup — for every pair (code,
name) in the table, the forward lookup of the code gives the name and the
reverse lookup of that name gives the code back — and the 13 display names
are pairwise distinct. -/
theorem C8_reverse_lookup_inverse :
    (SUPPORTED_LANGUAGES.all (fun p =>
        (dictGet SUPPORTED_LANGUAGES p.1 == some p.2) &&
        (dictGet inv_langs p.2 == some p.1)) = true) ∧
    (SUPPORTED_LANGUAGES.map Prod.snd).Nodup :=
  ⟨rfl, by decide⟩
